import Mathlib

/-! Room controller (room_control.c): shallow embedding and verified properties.

The module-level variables of `Src/room_control.c`, the function-local statics of
`room_control_tick`, and the hardware the module drives (SysTick counter, door-indicator
pin, TIM3 PWM duty, USART2 output) are gathered in one record, `RoomState`.  Every handler
of the C file is a function `RoomState → RoomState`.  Tick values are `uint32_t`: they are
natural numbers below `2^32`, and every subtraction of two ticks is the wrapped one.
-/

namespace RoomControl

/-- Level written to a GPIO output pin (`GPIO_PIN_RESET` / `GPIO_PIN_SET`). -/
inductive GpioPinState where
  | GPIO_PIN_RESET
  | GPIO_PIN_SET
  deriving DecidableEq, Repr

/-- Program and hardware state seen by `room_control.c`. -/
structure RoomState where
  /-- SysTick millisecond counter, the value `systick_get_tick()` returns. -/
  tick : Nat
  /-- Variable `static volatile uint32_t g_door_open_tick` (line 16). -/
  g_door_open_tick : Nat
  /-- Variable `static volatile uint8_t g_door_open` (line 17). -/
  g_door_open : Nat
  /-- Variable `static volatile uint32_t g_last_button_tick` (line 18). -/
  g_last_button_tick : Nat
  /-- File-scope `static uint8_t lamp_ramp_active` (line 20). -/
  lamp_ramp_active : Nat
  /-- File-scope `static uint32_t lamp_ramp_start_tick` (line 21). -/
  lamp_ramp_start_tick : Nat
  /-- File-scope `static uint8_t lamp_ramp_level` (line 22). -/
  lamp_ramp_level : Nat
  /-- Local `static uint8_t lamp_ramp_active` of `room_control_tick` (line 147),
  which shadows the file-scope variable of the same name. -/
  tick_lamp_ramp_active : Nat
  /-- Local `static uint32_t lamp_ramp_last_tick` of `room_control_tick` (line 148). -/
  tick_lamp_ramp_last_tick : Nat
  /-- Local `static uint8_t lamp_ramp_level` of `room_control_tick` (line 149),
  which shadows the file-scope variable of the same name. -/
  tick_lamp_ramp_level : Nat
  /-- Level of the door-indicator pin `EXTERNAL_LED_ONOFF_PIN`. -/
  door_pin : GpioPinState
  /-- Duty cycle last requested from TIM3 channel 1. -/
  pwm_duty : Nat
  /-- Strings sent over USART2, oldest first. -/
  uart_log : List String
  deriving DecidableEq, Repr

/-- Wrapped `uint32_t` subtraction `a - b`. -/
def sub32 (a b : Nat) : Nat := (a % 2 ^ 32 + (2 ^ 32 - b % 2 ^ 32)) % 2 ^ 32

/-- Modelled from the spec: `systick_get_tick` (systick.c is not under src/), the
"Time Source: monotonic millisecond counter, read-only to the core". -/
def systick_get_tick (s : RoomState) : Nat := s.tick

/-- Modelled from the spec: `gpio_write_pin` on the door-indicator pin (gpio.c is not
under src/), the "Indicator Output: set_door_indicator". -/
def gpio_write_pin (v : GpioPinState) (s : RoomState) : RoomState :=
  { s with door_pin := v }

/-- Modelled from the spec: `tim3_ch1_pwm_set_duty_cycle` (tim.c is not under src/), the
"PWM Output: set_duty"; the state records the percentage the caller asked for. -/
def tim3_ch1_pwm_set_duty_cycle (duty : Nat) (s : RoomState) : RoomState :=
  { s with pwm_duty := duty }

/-- Modelled from the spec: `uart2_send_string` (uart.c is not under src/), the
"Text Sink: emit(message)"; the message is appended to the output log. -/
def uart2_send_string (msg : String) (s : RoomState) : RoomState :=
  { s with uart_log := s.uart_log ++ [msg] }

/-- The SysTick counter shows `t` (reduced to 32 bits); nothing else differs. -/
def at_tick (t : Nat) (s : RoomState) : RoomState :=
  { s with tick := t % 2 ^ 32 }

/-- Source: `room_control_app_init` (lines 24-39). -/
def room_control_app_init (s : RoomState) : RoomState :=
  let s := gpio_write_pin .GPIO_PIN_RESET s
  let s := { s with g_door_open := 0 }
  let s := { s with g_door_open_tick := 0 }
  let s := tim3_ch1_pwm_set_duty_cycle 20 s
  let s := uart2_send_string "Controlador de sala v1.0\r\n" s
  let s := uart2_send_string "Desarrollado: William Camilo Obando.\r\n" s
  let s := uart2_send_string "Estado Inicial:\r\n" s
  let s := uart2_send_string " -Lámpara al 20%.\r\n" s
  uart2_send_string " -Puerta cerrada.\r\n" s

/-- Source: `room_control_on_uart_receive` (lines 68-136); the `switch` is written as a
chain of comparisons in the order of its `case` labels. -/
def room_control_on_uart_receive (cmd : Char) (s : RoomState) : RoomState :=
  if cmd = '1' then
    let s := tim3_ch1_pwm_set_duty_cycle 100 s
    uart2_send_string "Lámpara: brillo al 100%.\r\n" s
  else if cmd = '2' ∨ cmd = 's' then
    let s := tim3_ch1_pwm_set_duty_cycle 70 s
    let s := uart2_send_string "Lámpara: brillo al 70%.\r\n" s
    uart2_send_string "Puerta Abierta.\r\n" s
  else if cmd = '3' then
    let s := tim3_ch1_pwm_set_duty_cycle 50 s
    uart2_send_string "Lámpara: brillo al 50%.\r\n" s
  else if cmd = '4' then
    let s := tim3_ch1_pwm_set_duty_cycle 20 s
    uart2_send_string "Lámpara: brillo al 20%.\r\n" s
  else if cmd = '0' then
    let s := tim3_ch1_pwm_set_duty_cycle 0 s
    uart2_send_string "Lámpara apagada.\r\n" s
  else if cmd = 'o' ∨ cmd = 'O' then
    let s := gpio_write_pin .GPIO_PIN_SET s
    let s := { s with g_door_open_tick := systick_get_tick s }
    let s := { s with g_door_open := 1 }
    uart2_send_string "Puerta abierta remotamente.\r\n" s
  else if cmd = 'c' ∨ cmd = 'C' then
    let s := gpio_write_pin .GPIO_PIN_RESET s
    let s := { s with g_door_open := 0 }
    uart2_send_string "Puerta cerrada remotamente.\r\n" s
  else if cmd = '?' then
    let s := uart2_send_string "'1'-'4': Ajustar brillo lámpara (100%, 70%, 50%, 20%):\r\n" s
    let s := uart2_send_string "'0'   : Apagar lámpara\r\n" s
    let s := uart2_send_string "'o'   : Abrir puerta\r\n" s
    let s := uart2_send_string "'c'   : Cerrar puerta\r\n" s
    let s := uart2_send_string "'s'   : Estado del sistema\r\n" s
    uart2_send_string "'?'   : Ayuda\r\n" s
  else if cmd = 'g' then
    let s := { s with lamp_ramp_active := 1 }
    let s := { s with lamp_ramp_level := 0 }
    let s := { s with lamp_ramp_start_tick := systick_get_tick s }
    let s := tim3_ch1_pwm_set_duty_cycle 0 s
    uart2_send_string "Ramp up: lámpara de 0% a 100%.\r\n" s
  else
    uart2_send_string "Comando desconocido.\r\n" s

/-- Source: the door part of `room_control_tick` (lines 140-144). -/
def tick_door (s : RoomState) : RoomState :=
  if s.g_door_open ≠ 0 ∧ sub32 (systick_get_tick s) s.g_door_open_tick ≥ 3000 then
    let s := gpio_write_pin .GPIO_PIN_RESET s
    let s := uart2_send_string "Puerta cerrada automáticamente tras 3 segundos.\r\n" s
    { s with g_door_open := 0 }
  else s

/-- Source: the ramp part of `room_control_tick` (lines 147-161).  Every name in it
refers to the function-local statics declared at lines 147-149. -/
def tick_ramp (s : RoomState) : RoomState :=
  if s.tick_lamp_ramp_active ≠ 0 then
    if sub32 (systick_get_tick s) s.tick_lamp_ramp_last_tick ≥ 500 then
      let s := { s with tick_lamp_ramp_last_tick := systick_get_tick s }
      let s := tim3_ch1_pwm_set_duty_cycle (s.tick_lamp_ramp_level * 10) s
      let s := { s with tick_lamp_ramp_level := (s.tick_lamp_ramp_level + 1) % 256 }
      if s.tick_lamp_ramp_level > 10 then
        let s := { s with tick_lamp_ramp_active := 0 }
        uart2_send_string "Transcision terminada.\r\n" s
      else s
    else s
  else s

/-- Source: `room_control_tick` (lines 138-165). -/
def room_control_tick (s : RoomState) : RoomState :=
  tick_ramp (tick_door s)

/-- A handler that runs while `systick_delay_ms` is busy-waiting: a byte received on
USART2, or a call of the poll step, at the tick value `t`. -/
inductive Irq where
  | uart (t : Nat) (cmd : Char)
  | poll (t : Nat)
  deriving DecidableEq, Repr

/-- Runs one preempting handler at its tick value. -/
def run_irq (s : RoomState) : Irq → RoomState
  | .uart t cmd => room_control_on_uart_receive cmd (at_tick t s)
  | .poll t => room_control_tick (at_tick t s)

/-- Modelled from the spec: `systick_delay_ms` (systick.c is not under src/), "a full
blocking 10-second wait synchronously inside the button-event handler".  The handlers
`irqs` run during the wait, in order; the call returns when the counter is `ms` past its
value at entry. -/
def systick_delay_ms (irqs : List Irq) (ms : Nat) (s : RoomState) : RoomState :=
  at_tick (s.tick + ms) (irqs.foldl run_irq s)

/-- Source: `room_control_on_button_press`, lines 45-56: the statements of an accepted
press up to the call of `systick_delay_ms`. -/
def button_press_open (now : Nat) (s : RoomState) : RoomState :=
  let s := { s with g_last_button_tick := now }
  let s := uart2_send_string "Evento: Botón presionado - Abriendo puerta.\r\n" s
  let s := gpio_write_pin .GPIO_PIN_SET s
  let s := { s with g_door_open_tick := now }
  let s := { s with g_door_open := 1 }
  let s := tim3_ch1_pwm_set_duty_cycle 100 s
  uart2_send_string "Lámpara: brillo al 100%.\r\n" s

/-- Source: `room_control_on_button_press`, lines 58-64: the statements after the wait. -/
def button_press_revert (s : RoomState) : RoomState :=
  if s.g_door_open ≠ 0 then
    let s := tim3_ch1_pwm_set_duty_cycle 20 s
    uart2_send_string "Lámpara: brillo al 20% tras 10 segundos.\r\n" s
  else
    let s := tim3_ch1_pwm_set_duty_cycle 70 s
    uart2_send_string "Lámpara: brillo al 70% tras cerrar la puerta.\r\n" s

/-- Source: `room_control_on_button_press` (lines 41-66).  `irqs` are the handlers that
preempt the 10 000 ms wait of line 57. -/
def room_control_on_button_press (irqs : List Irq) (s : RoomState) : RoomState :=
  let now := systick_get_tick s
  if sub32 now s.g_last_button_tick < 50 then s
  else button_press_revert (systick_delay_ms irqs 10000 (button_press_open now s))

/-- State of the C statics at program start (all zero-initialised), with the counter at
zero, the indicator low, no PWM duty requested and nothing sent. -/
def power_on : RoomState :=
  { tick := 0, g_door_open_tick := 0, g_door_open := 0, g_last_button_tick := 0,
    lamp_ramp_active := 0, lamp_ramp_start_tick := 0, lamp_ramp_level := 0,
    tick_lamp_ramp_active := 0, tick_lamp_ramp_last_tick := 0, tick_lamp_ramp_level := 0,
    door_pin := .GPIO_PIN_RESET, pwm_duty := 0, uart_log := [] }

/-- The statics of `room_control.c` hold their C initialisers (lines 16-22 and 147-149);
the hardware fields are unconstrained. -/
def fresh_statics (s : RoomState) : Prop :=
  s.g_door_open_tick = 0 ∧ s.g_door_open = 0 ∧ s.g_last_button_tick = 0 ∧
  s.lamp_ramp_active = 0 ∧ s.lamp_ramp_start_tick = 0 ∧ s.lamp_ramp_level = 0 ∧
  s.tick_lamp_ramp_active = 0 ∧ s.tick_lamp_ramp_last_tick = 0 ∧ s.tick_lamp_ramp_level = 0

/-- States the program can be in after `room_control_app_init`, under any sequence of
completed handler calls at arbitrary tick values. -/
inductive Reachable : RoomState → Prop where
  | init (s0 : RoomState) : fresh_statics s0 → Reachable (room_control_app_init s0)
  | time (t : Nat) (s : RoomState) : Reachable s → Reachable (at_tick t s)
  | button (irqs : List Irq) (s : RoomState) :
      Reachable s → Reachable (room_control_on_button_press irqs s)
  | uart (cmd : Char) (s : RoomState) :
      Reachable s → Reachable (room_control_on_uart_receive cmd s)
  | poll (s : RoomState) : Reachable s → Reachable (room_control_tick s)

/-- The ways the code opens the door: an accepted button press (lines 49-51) and the
remote commands (lines 98-104). -/
inductive OpenCmd where
  | button
  | remote_o
  | remote_O
  deriving DecidableEq, Repr

/-- Runs the handler that `op` names, as one completed call. -/
def door_open_by (op : OpenCmd) (s : RoomState) : RoomState :=
  match op with
  | .button => room_control_on_button_press [] s
  | .remote_o => room_control_on_uart_receive 'o' s
  | .remote_O => room_control_on_uart_receive 'O' s

/-- The open `op` is not dropped by the debounce test of line 44 (remote opens never are). -/
def open_accepted (op : OpenCmd) (s : RoomState) : Prop :=
  op = .button → 50 ≤ sub32 (systick_get_tick s) s.g_last_button_tick

/-- The message of line 142. -/
def auto_close_msg : String := "Puerta cerrada automáticamente tras 3 segundos.\r\n"

/-- The byte `cmd` is one of the two remote-open commands. -/
def is_open_cmd (cmd : Char) : Prop := cmd = 'o' ∨ cmd = 'O'

/-- The preempting handler is a poll step or a UART byte other than a remote open. -/
def Irq.not_open : Irq → Prop
  | .uart _ cmd => ¬ is_open_cmd cmd
  | .poll _ => True

/-- The result `r` of a lamp-level command run in `s`: the requested duty is `duty`, and
the door flag, the door tick, the indicator pin and the debounce tick are those of `s`. -/
def lamp_set (duty : Nat) (s r : RoomState) : Prop :=
  r.pwm_duty = duty ∧ r.g_door_open = s.g_door_open ∧
  r.g_door_open_tick = s.g_door_open_tick ∧ r.door_pin = s.door_pin ∧
  r.g_last_button_tick = s.g_last_button_tick

/-- The six ramp variables (file scope and local to `room_control_tick`) agree. -/
def same_ramp (s r : RoomState) : Prop :=
  r.lamp_ramp_active = s.lamp_ramp_active ∧
  r.lamp_ramp_start_tick = s.lamp_ramp_start_tick ∧
  r.lamp_ramp_level = s.lamp_ramp_level ∧
  r.tick_lamp_ramp_active = s.tick_lamp_ramp_active ∧
  r.tick_lamp_ramp_last_tick = s.tick_lamp_ramp_last_tick ∧
  r.tick_lamp_ramp_level = s.tick_lamp_ramp_level

/-- The frame of a door command: PWM duty, ramp variables and debounce tick agree. -/
def door_frame (s r : RoomState) : Prop :=
  r.pwm_duty = s.pwm_duty ∧ same_ramp s r ∧ r.g_last_button_tick = s.g_last_button_tick

/-- The bytes that have a `case` label in `room_control_on_uart_receive`. -/
def known_cmds : List Char :=
  ['0', '1', '2', '3', '4', 's', 'o', 'O', 'c', 'C', 'g', '?']

/-- The six strings of the help command (lines 115-120). -/
def help_text : List String :=
  ["'1'-'4': Ajustar brillo lámpara (100%, 70%, 50%, 20%):\r\n",
   "'0'   : Apagar lámpara\r\n",
   "'o'   : Abrir puerta\r\n",
   "'c'   : Cerrar puerta\r\n",
   "'s'   : Estado del sistema\r\n",
   "'?'   : Ayuda\r\n"]

/-- Calls `room_control_tick` at each of the ticks `ts` in turn and lists the duty
requested after each call. -/
def poll_duties : List Nat → RoomState → List Nat
  | [], _ => []
  | t :: ts, s => (room_control_tick (at_tick t s)).pwm_duty ::
      poll_duties ts (room_control_tick (at_tick t s))

/-- Calls `room_control_tick` at each of the ticks `ts` in turn. -/
def poll_all (ts : List Nat) (s : RoomState) : RoomState :=
  ts.foldl (fun acc t => room_control_tick (at_tick t acc)) s

/-- The message of line 158. -/
def ramp_done_msg : String := "Transcision terminada.\r\n"

/-- State of `main.c`: the room controller state, the function-local
`static uint32_t last_tick` of `heartbeat_led_toggle` (line 17) and the level of the
heartbeat LED pin. -/
structure MainState where
  room : RoomState
  hb_last_tick : Nat
  hb_led : GpioPinState
  deriving DecidableEq, Repr

/-- Modelled from the spec: `gpio_toggle_pin` (gpio.c is not under src/), which inverts the
level of an output pin. -/
def gpio_toggle_pin (v : GpioPinState) : GpioPinState :=
  match v with
  | .GPIO_PIN_RESET => .GPIO_PIN_SET
  | .GPIO_PIN_SET => .GPIO_PIN_RESET

/-- Source: `heartbeat_led_toggle` (main.c, lines 15-22). -/
def heartbeat_led_toggle (m : MainState) : MainState :=
  if sub32 (systick_get_tick m.room) m.hb_last_tick ≥ 500 then
    let m := { m with hb_led := gpio_toggle_pin m.hb_led }
    { m with hb_last_tick := systick_get_tick m.room }
  else m

/-- Source: the bring-up sequence of `main` (main.c, lines 32-59).  The peripheral
configuration calls (`systick_init_1ms`, `gpio_setup_pin`, `nvic_*_enable`, `uart2_init`,
`tim3_ch1_pwm_init`) write none of the modelled fields; the calls that do are lines 50,
53 and 59. -/
def main_bringup (m : MainState) : MainState :=
  let r := tim3_ch1_pwm_set_duty_cycle 70 m.room
  let r := room_control_app_init r
  let r := uart2_send_string "\r\nSistema Inicializado. Esperando eventos...\r\n" r
  { m with room := r }

/-- Source: one iteration of the `while (1)` loop of `main` (main.c, lines 60-62). -/
def main_loop_iteration (m : MainState) : MainState :=
  heartbeat_led_toggle m

/-- Runs one loop iteration of `main` at each of the ticks `ts` in turn. -/
def main_loop (ts : List Nat) (m : MainState) : MainState :=
  ts.foldl (fun acc t => main_loop_iteration { acc with room := at_tick t acc.room }) m

/-- State of `main.c` at program start. -/
def main_power_on : MainState :=
  { room := power_on, hb_last_tick := 0, hb_led := .GPIO_PIN_RESET }

/-- Calls `room_control_on_button_press` once for each of the entry ticks `ts`, in order
and with no preempting handler, and lists for each call whether the handler changed the
state (an accepted press) or returned it as it was (a dropped one). -/
def press_outcomes : List Nat → RoomState → List Bool
  | [], _ => []
  | t :: ts, s =>
    decide (room_control_on_button_press [] (at_tick t s) ≠ at_tick t s) ::
      press_outcomes ts (room_control_on_button_press [] (at_tick t s))

/-- The debounce rule in the spec's words, "accepts iff now - last_accepted_at >= 50ms,
updating last_accepted_at on acceptance", run over a sequence of press ticks. -/
def debounce_spec : Nat → List Nat → List Bool
  | _, [] => []
  | last, t :: ts =>
    if 50 ≤ sub32 t last then true :: debounce_spec (t % 2 ^ 32) ts
    else false :: debounce_spec last ts

/-- Running `cmd` a second time changes nothing but the log, which then holds the
messages of `cmd` twice. -/
def idempotent_up_to_log (cmd : Char) (s : RoomState) : Prop :=
  ∃ msgs, (room_control_on_uart_receive cmd s).uart_log = s.uart_log ++ msgs ∧
    room_control_on_uart_receive cmd (room_control_on_uart_receive cmd s) =
      { room_control_on_uart_receive cmd s with uart_log := s.uart_log ++ msgs ++ msgs }

/-- The duty is a percentage, and while the ramp of `room_control_tick` is active its
step counter is at most 10. -/
def duty_ok (s : RoomState) : Prop :=
  s.pwm_duty ≤ 100 ∧ (s.tick_lamp_ramp_active ≠ 0 → s.tick_lamp_ramp_level ≤ 10)

/-- The indicator pin is high exactly when the door flag is 1. -/
def pin_mirrors_door (s : RoomState) : Prop :=
  s.door_pin = .GPIO_PIN_SET ↔ s.g_door_open = 1

/-- State of `main.c` after the bring-up and a remote open at tick 1000. -/
def opened_after_bringup : MainState :=
  { main_bringup main_power_on with
    room := room_control_on_uart_receive 'o' (at_tick 1000 (main_bringup main_power_on).room) }

/-- A state, not reachable in the program, in which the ramp of `room_control_tick` is at
its last step: flag 1, counter 10, last step 600 ms ago. -/
def ramp_last_step : RoomState :=
  { power_on with tick := 600, tick_lamp_ramp_active := 1, tick_lamp_ramp_level := 10 }

/-- What no UART command and no poll step touches or shrinks: the debounce tick is kept,
the output log is only extended, and the local ramp flag of the poll step stays zero. -/
def Kept (s s' : RoomState) : Prop :=
  s'.g_last_button_tick = s.g_last_button_tick ∧
  (∃ more, s'.uart_log = s.uart_log ++ more) ∧
  (s.tick_lamp_ramp_active = 0 → s'.tick_lamp_ramp_active = 0)

/-! ## Auxiliary facts -/

theorem sub32_self_offset (t d : Nat) (hd : d < 2 ^ 32) :
    sub32 ((t + d) % 2 ^ 32) (t % 2 ^ 32) = d := by
  simp only [sub32, Nat.reducePow] at *
  omega

theorem sub32_mod_left (a b : Nat) : sub32 (a % 2 ^ 32) b = sub32 a b := by
  simp only [sub32, Nat.reducePow]
  omega

theorem sub32_mod_right (a b : Nat) : sub32 a (b % 2 ^ 32) = sub32 a b := by
  simp only [sub32, Nat.reducePow]
  omega

theorem sub32_same (a : Nat) : sub32 a a = 0 := by
  simp only [sub32, Nat.reducePow]
  omega

theorem Kept.refl (s : RoomState) : Kept s s :=
  ⟨rfl, ⟨[], by simp⟩, id⟩

theorem Kept.trans {a b c : RoomState} (h₁ : Kept a b) (h₂ : Kept b c) : Kept a c := by
  obtain ⟨g₁, ⟨m₁, l₁⟩, r₁⟩ := h₁
  obtain ⟨g₂, ⟨m₂, l₂⟩, r₂⟩ := h₂
  refine ⟨g₂.trans g₁, ⟨m₁ ++ m₂, ?_⟩, fun h => r₂ (r₁ h)⟩
  rw [l₂, l₁, List.append_assoc]

theorem kept_at_tick (t : Nat) (s : RoomState) : Kept s (at_tick t s) :=
  ⟨rfl, ⟨[], by simp [at_tick]⟩, id⟩

theorem kept_uart (cmd : Char) (s : RoomState) :
    Kept s (room_control_on_uart_receive cmd s) := by
  unfold room_control_on_uart_receive
  split_ifs <;>
    simp [Kept, tim3_ch1_pwm_set_duty_cycle, uart2_send_string, gpio_write_pin]

theorem kept_tick_door (s : RoomState) : Kept s (tick_door s) := by
  unfold tick_door
  split_ifs <;> simp [Kept, uart2_send_string, gpio_write_pin]

theorem kept_tick_ramp (s : RoomState) : Kept s (tick_ramp s) := by
  unfold tick_ramp
  dsimp only
  split_ifs <;> simp_all [Kept, tim3_ch1_pwm_set_duty_cycle, uart2_send_string]

theorem kept_tick (s : RoomState) : Kept s (room_control_tick s) :=
  (kept_tick_door s).trans (kept_tick_ramp _)

theorem kept_run_irq (s : RoomState) (i : Irq) : Kept s (run_irq s i) := by
  cases i with
  | uart t cmd => exact (kept_at_tick t s).trans (kept_uart cmd _)
  | poll t => exact (kept_at_tick t s).trans (kept_tick _)

theorem kept_foldl (irqs : List Irq) (s : RoomState) : Kept s (irqs.foldl run_irq s) := by
  induction irqs generalizing s with
  | nil => exact Kept.refl s
  | cons i rest ih => exact (kept_run_irq s i).trans (ih _)

theorem kept_delay (irqs : List Irq) (ms : Nat) (s : RoomState) :
    Kept s (systick_delay_ms irqs ms s) :=
  (kept_foldl irqs s).trans (kept_at_tick _ _)

theorem kept_revert (s : RoomState) : Kept s (button_press_revert s) := by
  unfold button_press_revert
  split_ifs <;> simp [Kept, tim3_ch1_pwm_set_duty_cycle, uart2_send_string]

theorem button_press_rejected (irqs : List Irq) (s : RoomState)
    (h : sub32 (systick_get_tick s) s.g_last_button_tick < 50) :
    room_control_on_button_press irqs s = s := by
  simp [room_control_on_button_press, h]

theorem button_press_accepted (irqs : List Irq) (s : RoomState)
    (h : 50 ≤ sub32 (systick_get_tick s) s.g_last_button_tick) :
    room_control_on_button_press irqs s =
      button_press_revert
        (systick_delay_ms irqs 10000 (button_press_open (systick_get_tick s) s)) := by
  simp [room_control_on_button_press, Nat.not_lt.mpr h]

theorem kept_after_open (irqs : List Irq) (now : Nat) (s : RoomState) :
    Kept (button_press_open now s)
      (button_press_revert (systick_delay_ms irqs 10000 (button_press_open now s))) :=
  (kept_delay irqs 10000 _).trans (kept_revert _)

theorem ramp_idle_button (irqs : List Irq) (s : RoomState)
    (h : s.tick_lamp_ramp_active = 0) :
    (room_control_on_button_press irqs s).tick_lamp_ramp_active = 0 := by
  by_cases hlt : sub32 (systick_get_tick s) s.g_last_button_tick < 50
  · rw [button_press_rejected irqs s hlt]; exact h
  · rw [button_press_accepted irqs s (Nat.not_lt.mp hlt)]
    exact (kept_after_open irqs (systick_get_tick s) s).2.2 (by simpa [button_press_open,
      uart2_send_string, tim3_ch1_pwm_set_duty_cycle, gpio_write_pin] using h)

/-- In every reachable state the ramp flag local to `room_control_tick` is zero: it is
initialised to zero at line 147 and line 157 is the only assignment to it. -/
theorem reachable_ramp_idle {s : RoomState} (hs : Reachable s) :
    s.tick_lamp_ramp_active = 0 := by
  induction hs with
  | init s0 h0 =>
    simpa [room_control_app_init, uart2_send_string, tim3_ch1_pwm_set_duty_cycle,
      gpio_write_pin] using h0.2.2.2.2.2.2.1
  | time t s _ ih => exact (kept_at_tick t s).2.2 ih
  | button irqs s _ ih => exact ramp_idle_button irqs s ih
  | uart cmd s _ ih => exact (kept_uart cmd s).2.2 ih
  | poll s _ ih => exact (kept_tick s).2.2 ih

theorem tick_ramp_idle (s : RoomState) (h : s.tick_lamp_ramp_active = 0) :
    tick_ramp s = s := by
  simp [tick_ramp, h]

theorem tick_door_early (s : RoomState)
    (h : sub32 (systick_get_tick s) s.g_door_open_tick < 3000) : tick_door s = s := by
  simp [tick_door, h]

theorem tick_door_closed (s : RoomState) (h : s.g_door_open = 0) : tick_door s = s := by
  simp [tick_door, h]

theorem tick_door_late (s : RoomState) (ho : s.g_door_open ≠ 0)
    (h : 3000 ≤ sub32 (systick_get_tick s) s.g_door_open_tick) :
    tick_door s =
      { s with g_door_open := 0, door_pin := .GPIO_PIN_RESET,
               uart_log := s.uart_log ++ [auto_close_msg] } := by
  simp [tick_door, h, ho, gpio_write_pin, uart2_send_string, auto_close_msg]

theorem tick_ramp_door (s : RoomState) : (tick_ramp s).g_door_open = s.g_door_open := by
  unfold tick_ramp
  dsimp only
  split_ifs <;> simp [tim3_ch1_pwm_set_duty_cycle, uart2_send_string]

theorem tick_ramp_count (s : RoomState) :
    (tick_ramp s).uart_log.count auto_close_msg = s.uart_log.count auto_close_msg := by
  unfold tick_ramp
  dsimp only
  split_ifs <;>
    simp +decide [tim3_ch1_pwm_set_duty_cycle, uart2_send_string, auto_close_msg,
      List.count_append]

/-- State right after an open that the debounce test does not drop: the flag is 1, the
open tick is the tick of the call, the indicator is set. -/
theorem door_open_by_spec (op : OpenCmd) (s : RoomState) (hacc : open_accepted op s) :
    (door_open_by op s).g_door_open = 1 ∧
    (door_open_by op s).g_door_open_tick = systick_get_tick s ∧
    (door_open_by op s).door_pin = .GPIO_PIN_SET ∧
    (s.tick_lamp_ramp_active = 0 → (door_open_by op s).tick_lamp_ramp_active = 0) := by
  cases op with
  | button =>
    have h := hacc rfl
    simp only [door_open_by]
    rw [button_press_accepted [] s h]
    simp [button_press_revert, systick_delay_ms, at_tick, button_press_open,
      uart2_send_string, tim3_ch1_pwm_set_duty_cycle, gpio_write_pin]
  | remote_o =>
    simp [door_open_by, room_control_on_uart_receive, uart2_send_string, gpio_write_pin,
      systick_get_tick]
  | remote_O =>
    simp [door_open_by, room_control_on_uart_receive, uart2_send_string, gpio_write_pin,
      systick_get_tick]

/-- A UART byte other than a remote open, or a poll step, keeps a closed door closed and
sends no auto-close message. -/
theorem closed_run_irq (s : RoomState) (i : Irq) (hi : i.not_open)
    (h : s.g_door_open = 0) :
    (run_irq s i).g_door_open = 0 ∧
    (run_irq s i).uart_log.count auto_close_msg = s.uart_log.count auto_close_msg := by
  cases i with
  | uart t cmd =>
    have hcmd : ¬ (cmd = 'o' ∨ cmd = 'O') := hi
    simp only [run_irq]
    unfold room_control_on_uart_receive
    split_ifs <;>
      simp_all +decide [at_tick, tim3_ch1_pwm_set_duty_cycle, uart2_send_string,
        gpio_write_pin, auto_close_msg, List.count_append]
  | poll t =>
    have hc : (at_tick t s).g_door_open = 0 := h
    simp only [run_irq, room_control_tick]
    rw [tick_door_closed _ hc, tick_ramp_door, tick_ramp_count]
    exact ⟨hc, rfl⟩

theorem closed_foldl (later : List Irq) (s : RoomState)
    (hlater : ∀ i ∈ later, i.not_open) (h : s.g_door_open = 0) :
    (later.foldl run_irq s).g_door_open = 0 ∧
    (later.foldl run_irq s).uart_log.count auto_close_msg =
      s.uart_log.count auto_close_msg := by
  induction later generalizing s with
  | nil => exact ⟨h, rfl⟩
  | cons i rest ih =>
    have hi := closed_run_irq s i (hlater i (List.mem_cons_self _ _)) h
    have hr := ih (run_irq s i) (fun j hj => hlater j (List.mem_cons_of_mem _ hj)) hi.1
    exact ⟨hr.1, hr.2.trans hi.2⟩

/-! ## Debounce gate -/

/-- C1. Debounce gate, single step: in every state, with `now` the current tick,
`room_control_on_button_press` accepts the press (it sends the button-event message)
iff the wrapped difference `now - g_last_button_tick` is at least 50; an accepted press
leaves `g_last_button_tick = now`; a rejected press returns the state it was given, so
`g_last_button_tick`, `g_door_open`, `g_door_open_tick`, the indicator pin, the PWM duty
and the UART log are all as before. -/
theorem debounce_gate_single_step (irqs : List Irq) (s : RoomState) :
    ((∃ rest, (room_control_on_button_press irqs s).uart_log =
        s.uart_log ++ "Evento: Botón presionado - Abriendo puerta.\r\n" :: rest) ↔
      50 ≤ sub32 (systick_get_tick s) s.g_last_button_tick) ∧
    (50 ≤ sub32 (systick_get_tick s) s.g_last_button_tick →
      (room_control_on_button_press irqs s).g_last_button_tick = systick_get_tick s) ∧
    (sub32 (systick_get_tick s) s.g_last_button_tick < 50 →
      room_control_on_button_press irqs s = s) := by
  refine ⟨⟨?_, ?_⟩, ?_, button_press_rejected irqs s⟩
  · rintro ⟨rest, hrest⟩
    by_contra hlt
    rw [button_press_rejected irqs s (Nat.not_le.mp hlt)] at hrest
    have hlen := congrArg List.length hrest
    simp at hlen
  · intro h
    obtain ⟨-, ⟨more, hmore⟩, -⟩ := kept_after_open irqs (systick_get_tick s) s
    rw [button_press_accepted irqs s h, hmore]
    exact ⟨"Lámpara: brillo al 100%.\r\n" :: more, by simp [button_press_open, uart2_send_string,
      tim3_ch1_pwm_set_duty_cycle, gpio_write_pin]⟩
  · intro h
    obtain ⟨hg, -, -⟩ := kept_after_open irqs (systick_get_tick s) s
    rw [button_press_accepted irqs s h, hg]
    simp [button_press_open, uart2_send_string, tim3_ch1_pwm_set_duty_cycle, gpio_write_pin]

/-! ## Door auto-close -/

/-- C2. Door auto-close: from every reachable state, after the door is opened at tick
`t0` (accepted button press, remote 'o' or remote 'O'), `room_control_tick` at a tick `t`
with wrapped `t - t0 < 3000` changes nothing (the door flag is still 1, the indicator is
set, nothing is sent); at a tick with `t - t0 >= 3000` it clears `g_door_open`, resets the
indicator and appends exactly the auto-close message; and whatever poll steps and UART
bytes other than a remote open follow, the log holds just that one additional auto-close
message. -/
theorem door_auto_close (op : OpenCmd) (s : RoomState) (t0 t : Nat) (later : List Irq)
    (hs : Reachable s) (hacc : open_accepted op (at_tick t0 s))
    (hlater : ∀ i ∈ later, i.not_open) :
    let opened := at_tick t (door_open_by op (at_tick t0 s))
    (sub32 t t0 < 3000 →
      room_control_tick opened = opened ∧ opened.g_door_open = 1 ∧
      opened.door_pin = .GPIO_PIN_SET) ∧
    (3000 ≤ sub32 t t0 →
      room_control_tick opened =
        { opened with g_door_open := 0, door_pin := .GPIO_PIN_RESET,
                      uart_log := opened.uart_log ++ [auto_close_msg] } ∧
      (later.foldl run_irq (room_control_tick opened)).uart_log.count auto_close_msg =
        opened.uart_log.count auto_close_msg + 1) := by
  intro opened
  obtain ⟨hopen, htick, hpin, hidle⟩ := door_open_by_spec op (at_tick t0 s) hacc
  have hidle' : opened.tick_lamp_ramp_active = 0 := hidle (reachable_ramp_idle (.time t0 s hs))
  have hopen' : opened.g_door_open = 1 := hopen
  have hdiff : sub32 (systick_get_tick opened) opened.g_door_open_tick = sub32 t t0 := by
    have e1 : systick_get_tick opened = t % 2 ^ 32 := rfl
    have e2 : opened.g_door_open_tick = t0 % 2 ^ 32 := htick
    rw [e1, e2, sub32_mod_left, sub32_mod_right]
  constructor
  · intro hlt
    refine ⟨?_, hopen', hpin⟩
    unfold room_control_tick
    rw [tick_door_early opened (hdiff ▸ hlt), tick_ramp_idle opened hidle']
  · intro hge
    have hclose : room_control_tick opened =
        { opened with g_door_open := 0, door_pin := .GPIO_PIN_RESET,
                      uart_log := opened.uart_log ++ [auto_close_msg] } := by
      unfold room_control_tick
      rw [tick_door_late opened (by omega) (hdiff ▸ hge)]
      exact tick_ramp_idle _ hidle'
    refine ⟨hclose, ?_⟩
    have hc := closed_foldl later (room_control_tick opened) hlater (by rw [hclose])
    rw [hc.2, hclose]
    simp [List.count_append]

/-- Witness for C2: a button press at tick 1000 right after initialisation, polled at
tick 4000 and followed by a remote close and another poll. -/
theorem door_auto_close_witness :
    Reachable (room_control_app_init power_on) ∧
    open_accepted .button (at_tick 1000 (room_control_app_init power_on)) ∧
    (∀ i ∈ [Irq.uart 4500 'c', Irq.poll 9000], i.not_open) ∧
    (room_control_tick (at_tick 4000
        (door_open_by .button (at_tick 1000 (room_control_app_init power_on))))).g_door_open
      = 0 := by
  have hr : Reachable (room_control_app_init power_on) :=
    .init power_on (by simp [fresh_statics, power_on])
  have ha : open_accepted .button (at_tick 1000 (room_control_app_init power_on)) := by
    intro _; decide
  have hl : ∀ i ∈ [Irq.uart 4500 'c', Irq.poll 9000], i.not_open := by
    intro i hi
    simp only [List.mem_cons, List.mem_singleton, List.mem_nil_iff, or_false] at hi
    rcases hi with rfl | rfl
    · simp [Irq.not_open, is_open_cmd]
    · trivial
  refine ⟨hr, ha, hl, ?_⟩
  rw [((door_auto_close .button (room_control_app_init power_on) 1000 4000
    [Irq.uart 4500 'c', Irq.poll 9000] hr ha hl).2 (by decide)).1]

/-! ## Door re-open refresh -/

/-- C3. Door re-open refresh: from every reachable state, opening the door at `t0` and
again at `t1` (each by an accepted press, remote 'o' or remote 'O') leaves
`g_door_open_tick` at the second tick, so a later `room_control_tick` at tick `t` keeps
the door open iff the wrapped `t - t1 < 3000` and closes it iff `t - t1 >= 3000`; with
`t1 = t0 + 1000` the poll at `t0 + 3999` leaves the door open and the poll at
`t0 + 4000` closes it. -/
theorem door_reopen_refresh (op1 op2 : OpenCmd) (s : RoomState) (t0 t1 t : Nat)
    (hs : Reachable s) (h1 : open_accepted op1 (at_tick t0 s))
    (h2 : open_accepted op2 (at_tick t1 (door_open_by op1 (at_tick t0 s)))) :
    let twice := door_open_by op2 (at_tick t1 (door_open_by op1 (at_tick t0 s)))
    twice.g_door_open = 1 ∧ twice.g_door_open_tick = t1 % 2 ^ 32 ∧
    ((room_control_tick (at_tick t twice)).g_door_open = 1 ↔ sub32 t t1 < 3000) ∧
    ((room_control_tick (at_tick t twice)).g_door_open = 0 ↔ 3000 ≤ sub32 t t1) ∧
    (t1 = t0 + 1000 →
      (room_control_tick (at_tick (t0 + 3999) twice)).g_door_open = 1 ∧
      (room_control_tick (at_tick (t0 + 4000) twice)).g_door_open = 0) := by
  intro twice
  obtain ⟨-, -, -, hidle1⟩ := door_open_by_spec op1 (at_tick t0 s) h1
  obtain ⟨hopen, htick, -, hidle2⟩ :=
    door_open_by_spec op2 (at_tick t1 (door_open_by op1 (at_tick t0 s))) h2
  have hidle : twice.tick_lamp_ramp_active = 0 := hidle2 (hidle1 (reachable_ramp_idle (.time t0 s hs)))
  have hopen' : twice.g_door_open = 1 := hopen
  have htick' : twice.g_door_open_tick = t1 % 2 ^ 32 := htick
  have key : ∀ u : Nat,
      (sub32 u t1 < 3000 → (room_control_tick (at_tick u twice)).g_door_open = 1) ∧
      (3000 ≤ sub32 u t1 → (room_control_tick (at_tick u twice)).g_door_open = 0) := by
    intro u
    have hdiff : sub32 (systick_get_tick (at_tick u twice)) (at_tick u twice).g_door_open_tick
        = sub32 u t1 := by
      have e1 : systick_get_tick (at_tick u twice) = u % 2 ^ 32 := rfl
      have e2 : (at_tick u twice).g_door_open_tick = t1 % 2 ^ 32 := htick'
      rw [e1, e2, sub32_mod_left, sub32_mod_right]
    have hi : (at_tick u twice).tick_lamp_ramp_active = 0 := hidle
    have ho : (at_tick u twice).g_door_open = 1 := hopen'
    constructor
    · intro hlt
      unfold room_control_tick
      rw [tick_door_early _ (hdiff ▸ hlt), tick_ramp_idle _ hi]
      exact ho
    · intro hge
      unfold room_control_tick
      rw [tick_ramp_door, tick_door_late _ (by omega) (hdiff ▸ hge)]
  refine ⟨hopen', htick', ⟨?_, (key t).1⟩, ⟨?_, (key t).2⟩, ?_⟩
  · intro h
    by_contra hge
    have := (key t).2 (Nat.not_lt.mp hge)
    omega
  · intro h
    by_contra hlt
    have := (key t).1 (Nat.not_le.mp hlt)
    omega
  · rintro rfl
    refine ⟨(key (t0 + 3999)).1 ?_, (key (t0 + 4000)).2 ?_⟩ <;>
      · simp only [sub32, Nat.reducePow]
        omega

/-- Witness for C3: remote open at tick 1000, button press at tick 2000, polls at ticks
4999 and 5000. -/
theorem door_reopen_refresh_witness :
    Reachable (room_control_app_init power_on) ∧
    open_accepted .remote_o (at_tick 1000 (room_control_app_init power_on)) ∧
    open_accepted .button
      (at_tick 2000 (door_open_by .remote_o (at_tick 1000 (room_control_app_init power_on)))) ∧
    (room_control_tick (at_tick 4999 (door_open_by .button (at_tick 2000
      (door_open_by .remote_o (at_tick 1000 (room_control_app_init power_on))))))).g_door_open
      = 1 ∧
    (room_control_tick (at_tick 5000 (door_open_by .button (at_tick 2000
      (door_open_by .remote_o (at_tick 1000 (room_control_app_init power_on))))))).g_door_open
      = 0 := by
  have hr : Reachable (room_control_app_init power_on) :=
    .init power_on (by simp [fresh_statics, power_on])
  have h1 : open_accepted .remote_o (at_tick 1000 (room_control_app_init power_on)) := by
    intro h; cases h
  have h2 : open_accepted .button (at_tick 2000
      (door_open_by .remote_o (at_tick 1000 (room_control_app_init power_on)))) := by
    intro _; decide
  exact ⟨hr, h1, h2,
    ((door_reopen_refresh .remote_o .button (room_control_app_init power_on) 1000 2000 0
      hr h1 h2).2.2.2.2 rfl)⟩

/-! ## Command dispatcher -/

/-- C4. Lamp level command table: in every state `room_control_on_uart_receive` requests
the duty 100 for '1', 70 for '2' and for 's', 50 for '3', 20 for '4' and 0 for '0',
whatever the previous duty, and leaves `g_door_open`, `g_door_open_tick`, the indicator
pin and `g_last_button_tick` as they were. -/
theorem lamp_level_table (s : RoomState) :
    lamp_set 100 s (room_control_on_uart_receive '1' s) ∧
    lamp_set 70 s (room_control_on_uart_receive '2' s) ∧
    lamp_set 70 s (room_control_on_uart_receive 's' s) ∧
    lamp_set 50 s (room_control_on_uart_receive '3' s) ∧
    lamp_set 20 s (room_control_on_uart_receive '4' s) ∧
    lamp_set 0 s (room_control_on_uart_receive '0' s) := by
  refine ⟨?_, ?_, ?_, ?_, ?_, ?_⟩ <;>
    simp [lamp_set, room_control_on_uart_receive, tim3_ch1_pwm_set_duty_cycle,
      uart2_send_string]

/-- C5. Door command table and its frame: in every state 'o' and 'O' give the same
result, with `g_door_open = 1`, `g_door_open_tick` the current tick and the indicator
high; 'c' and 'C' give the same result, with `g_door_open = 0` and the indicator low; and
none of the four changes the PWM duty, a ramp variable or `g_last_button_tick`. -/
theorem door_command_table (s : RoomState) :
    room_control_on_uart_receive 'O' s = room_control_on_uart_receive 'o' s ∧
    (room_control_on_uart_receive 'o' s).g_door_open = 1 ∧
    (room_control_on_uart_receive 'o' s).g_door_open_tick = systick_get_tick s ∧
    (room_control_on_uart_receive 'o' s).door_pin = .GPIO_PIN_SET ∧
    room_control_on_uart_receive 'C' s = room_control_on_uart_receive 'c' s ∧
    (room_control_on_uart_receive 'c' s).g_door_open = 0 ∧
    (room_control_on_uart_receive 'c' s).door_pin = .GPIO_PIN_RESET ∧
    door_frame s (room_control_on_uart_receive 'o' s) ∧
    door_frame s (room_control_on_uart_receive 'O' s) ∧
    door_frame s (room_control_on_uart_receive 'c' s) ∧
    door_frame s (room_control_on_uart_receive 'C' s) := by
  refine ⟨?_, ?_, ?_, ?_, ?_, ?_, ?_, ?_, ?_, ?_, ?_⟩ <;>
    simp [door_frame, same_ramp, room_control_on_uart_receive, gpio_write_pin,
      uart2_send_string, systick_get_tick]

/-- C6. Unknown bytes and help: for every byte without a `case` label the handler appends
the one "unknown command" message to the log and changes nothing else; for '?' it
appends the six help strings and changes nothing else. -/
theorem unknown_and_help_stateless (cmd : Char) (s : RoomState) (h : cmd ∉ known_cmds) :
    room_control_on_uart_receive cmd s =
      { s with uart_log := s.uart_log ++ ["Comando desconocido.\r\n"] } ∧
    room_control_on_uart_receive '?' s =
      { s with uart_log := s.uart_log ++ help_text } := by
  constructor
  · simp only [known_cmds, List.mem_cons, List.mem_singleton, List.mem_nil_iff, or_false,
      not_or] at h
    obtain ⟨h0, h1, h2, h3, h4, hs, ho, hO, hc, hC, hg, hq⟩ := h
    simp [room_control_on_uart_receive, uart2_send_string, h0, h1, h2, h3, h4, hs, ho, hO,
      hc, hC, hg, hq]
  · simp [room_control_on_uart_receive, uart2_send_string, help_text]

/-- Witness for C6: the byte 'x' received right after initialisation. -/
theorem unknown_and_help_stateless_witness :
    'x' ∉ known_cmds ∧
    room_control_on_uart_receive 'x' (room_control_app_init power_on) =
      { room_control_app_init power_on with
        uart_log := (room_control_app_init power_on).uart_log ++
          ["Comando desconocido.\r\n"] } :=
  ⟨by decide,
   (unknown_and_help_stateless 'x' (room_control_app_init power_on) (by decide)).1⟩

/-! ## Lamp override of the button press -/

theorem delay_door (irqs : List Irq) (ms : Nat) (s : RoomState) :
    (systick_delay_ms irqs ms s).g_door_open = (irqs.foldl run_irq s).g_door_open := by
  simp [systick_delay_ms, at_tick]

theorem revert_duty (s : RoomState) :
    (button_press_revert s).pwm_duty = if s.g_door_open ≠ 0 then 20 else 70 := by
  unfold button_press_revert
  split_ifs <;> simp [tim3_ch1_pwm_set_duty_cycle, uart2_send_string]

/-- C7. Lamp override revert branches: an accepted button press requests the duty 100
and opens the door before it starts to wait; when the 10 000 ms wait is over, the duty
becomes 20 if `g_door_open` is then nonzero and 70 if it is zero.  The target is read
after the wait: with no preempting handler the duty ends at 20, with a remote 'c' or 'C'
during the wait it ends at 70, and so it does when a poll step auto-closes the door
during the wait. -/
theorem lamp_override_revert (irqs : List Irq) (s : RoomState) (t : Nat)
    (hacc : 50 ≤ sub32 (systick_get_tick s) s.g_last_button_tick) :
    let pressed := button_press_open (systick_get_tick s) s
    let expired := systick_delay_ms irqs 10000 pressed
    pressed.pwm_duty = 100 ∧ pressed.g_door_open = 1 ∧
    pressed.door_pin = .GPIO_PIN_SET ∧
    expired.tick = (systick_get_tick s + 10000) % 2 ^ 32 ∧
    (room_control_on_button_press irqs s).pwm_duty =
      (if expired.g_door_open ≠ 0 then 20 else 70) ∧
    (room_control_on_button_press [] s).pwm_duty = 20 ∧
    (room_control_on_button_press [.uart t 'c'] s).pwm_duty = 70 ∧
    (room_control_on_button_press [.uart t 'C'] s).pwm_duty = 70 ∧
    (3000 ≤ sub32 t (systick_get_tick s) →
      (room_control_on_button_press [.poll t] s).pwm_duty = 70) := by
  intro pressed expired
  have hp : pressed.g_door_open = 1 := rfl
  have hpt : pressed.g_door_open_tick = systick_get_tick s := rfl
  refine ⟨rfl, hp, rfl, rfl, ?_, ?_, ?_, ?_, ?_⟩
  · rw [button_press_accepted irqs s hacc, revert_duty]
  · rw [button_press_accepted [] s hacc, revert_duty]
    simp [systick_delay_ms, at_tick, button_press_open, uart2_send_string,
      tim3_ch1_pwm_set_duty_cycle, gpio_write_pin]
  · rw [button_press_accepted _ s hacc, revert_duty]
    simp [systick_delay_ms, run_irq, at_tick, room_control_on_uart_receive,
      uart2_send_string, gpio_write_pin]
  · rw [button_press_accepted _ s hacc, revert_duty]
    simp [systick_delay_ms, run_irq, at_tick, room_control_on_uart_receive,
      uart2_send_string, gpio_write_pin]
  · intro hge
    rw [button_press_accepted _ s hacc, revert_duty]
    have hd : sub32 (systick_get_tick (at_tick t pressed)) (at_tick t pressed).g_door_open_tick
        = sub32 t (systick_get_tick s) := by
      have e1 : systick_get_tick (at_tick t pressed) = t % 2 ^ 32 := rfl
      have e2 : (at_tick t pressed).g_door_open_tick = systick_get_tick s := hpt
      rw [e1, e2, sub32_mod_left]
    have ho : (at_tick t pressed).g_door_open ≠ 0 := by
      have : (at_tick t pressed).g_door_open = 1 := hp
      omega
    have hz : (systick_delay_ms [.poll t] 10000 pressed).g_door_open = 0 := by
      rw [delay_door]
      simp only [List.foldl, run_irq, room_control_tick]
      rw [tick_ramp_door, tick_door_late _ ho (hd ▸ hge)]
    rw [hz]
    simp

/-- Witness for C7: a press at tick 1000 after initialisation, preempted by a remote
close at tick 3000. -/
theorem lamp_override_revert_witness :
    50 ≤ sub32 (systick_get_tick (at_tick 1000 (room_control_app_init power_on)))
      (at_tick 1000 (room_control_app_init power_on)).g_last_button_tick ∧
    (room_control_on_button_press [.uart 3000 'c']
      (at_tick 1000 (room_control_app_init power_on))).pwm_duty = 70 ∧
    (room_control_on_button_press []
      (at_tick 1000 (room_control_app_init power_on))).pwm_duty = 20 :=
  ⟨by decide,
   (lamp_override_revert [] (at_tick 1000 (room_control_app_init power_on)) 3000
      (by decide)).2.2.2.2.2.2.1,
   (lamp_override_revert [] (at_tick 1000 (room_control_app_init power_on)) 3000
      (by decide)).2.2.2.2.2.1⟩

/-! ## Ramp -/

/-- C8, evaluated on the code: after initialisation, 'g' at tick 1000 requests the duty 0
and sets the file-scope ramp flag, but the eleven polls at ticks 1500, 2000, ..., 6500
each leave the duty at 0 (not 0, 10, ..., 100), the file-scope flag is still 1 after
them and no ramp-finished message has been sent: `room_control_tick` tests its own
local static `lamp_ramp_active`, which nothing sets. -/
theorem ramp_never_advances :
    (room_control_on_uart_receive 'g'
      (at_tick 1000 (room_control_app_init power_on))).pwm_duty = 0 ∧
    (room_control_on_uart_receive 'g'
      (at_tick 1000 (room_control_app_init power_on))).lamp_ramp_active = 1 ∧
    poll_duties [1500, 2000, 2500, 3000, 3500, 4000, 4500, 5000, 5500, 6000, 6500]
      (room_control_on_uart_receive 'g' (at_tick 1000 (room_control_app_init power_on)))
      = [0, 0, 0, 0, 0, 0, 0, 0, 0, 0, 0] ∧
    (poll_all [1500, 2000, 2500, 3000, 3500, 4000, 4500, 5000, 5500, 6000, 6500]
      (room_control_on_uart_receive 'g'
        (at_tick 1000 (room_control_app_init power_on)))).lamp_ramp_active = 1 ∧
    ramp_done_msg ∉
      (poll_all [1500, 2000, 2500, 3000, 3500, 4000, 4500, 5000, 5500, 6000, 6500]
        (room_control_on_uart_receive 'g'
          (at_tick 1000 (room_control_app_init power_on)))).uart_log := by
  decide

/-- C9 fails as stated: after 'g', the level command '4' leaves the file-scope ramp
flag at 1. -/
theorem level_command_keeps_ramp_flag :
    (room_control_on_uart_receive 'g' (room_control_app_init power_on)).lamp_ramp_active
      = 1 ∧
    (room_control_on_uart_receive '4'
      (room_control_on_uart_receive 'g' (room_control_app_init power_on))).lamp_ramp_active
      ≠ 0 := by
  decide

/-- C9 as amended: in every state each of the level commands '0', '1', '2', 's', '3',
'4' requests its duty and leaves all ramp variables, the ramp-active flag included, as
they were. -/
theorem level_commands_leave_ramp (s : RoomState) :
    (same_ramp s (room_control_on_uart_receive '0' s) ∧
      (room_control_on_uart_receive '0' s).pwm_duty = 0) ∧
    (same_ramp s (room_control_on_uart_receive '1' s) ∧
      (room_control_on_uart_receive '1' s).pwm_duty = 100) ∧
    (same_ramp s (room_control_on_uart_receive '2' s) ∧
      (room_control_on_uart_receive '2' s).pwm_duty = 70) ∧
    (same_ramp s (room_control_on_uart_receive 's' s) ∧
      (room_control_on_uart_receive 's' s).pwm_duty = 70) ∧
    (same_ramp s (room_control_on_uart_receive '3' s) ∧
      (room_control_on_uart_receive '3' s).pwm_duty = 50) ∧
    (same_ramp s (room_control_on_uart_receive '4' s) ∧
      (room_control_on_uart_receive '4' s).pwm_duty = 20) := by
  refine ⟨?_, ?_, ?_, ?_, ?_, ?_⟩ <;>
    simp [same_ramp, room_control_on_uart_receive, tim3_ch1_pwm_set_duty_cycle,
      uart2_send_string]

/-! ## Blocking wait of the button handler -/

/-- C10 fails as stated: a press at tick 1000 after initialisation, with no preempting
handler, returns with the counter at 11000 and with the duty already reverted to 20
by the handler itself. -/
theorem button_press_blocks_example :
    (at_tick 1000 (room_control_app_init power_on)).tick = 1000 ∧
    (room_control_on_button_press [] (at_tick 1000 (room_control_app_init power_on))).tick
      = 11000 ∧
    (room_control_on_button_press []
      (at_tick 1000 (room_control_app_init power_on))).pwm_duty = 20 ∧
    "Lámpara: brillo al 20% tras 10 segundos.\r\n" ∈
      (room_control_on_button_press []
        (at_tick 1000 (room_control_app_init power_on))).uart_log := by
  decide

theorem revert_tick (s : RoomState) : (button_press_revert s).tick = s.tick := by
  unfold button_press_revert
  split_ifs <;> simp [tim3_ch1_pwm_set_duty_cycle, uart2_send_string]

theorem tick_door_duty (s : RoomState) : (tick_door s).pwm_duty = s.pwm_duty := by
  unfold tick_door
  split_ifs <;> simp [gpio_write_pin, uart2_send_string]

/-- C10 as amended: an accepted press blocks, returning with the tick counter 10 000 ms
past its value at entry (mod 2^32), and the handler itself performs the revert after the
wait (duty 20 if `g_door_open` is then nonzero, else 70); a rejected press returns with
the counter unchanged; `room_control_tick` performs no revert: its door step never
writes the duty, and the only duty it can request is the ramp step `level * 10`. -/
theorem button_press_blocks (irqs : List Irq) (s r : RoomState)
    (hacc : 50 ≤ sub32 (systick_get_tick s) s.g_last_button_tick) :
    (room_control_on_button_press irqs s).tick = (systick_get_tick s + 10000) % 2 ^ 32 ∧
    (room_control_on_button_press irqs s).pwm_duty =
      (if (systick_delay_ms irqs 10000
            (button_press_open (systick_get_tick s) s)).g_door_open ≠ 0 then 20 else 70) ∧
    (sub32 (systick_get_tick r) r.g_last_button_tick < 50 →
      (room_control_on_button_press irqs r).tick = systick_get_tick r) ∧
    (tick_door r).pwm_duty = r.pwm_duty ∧
    ((room_control_tick r).pwm_duty = r.pwm_duty ∨
      (r.tick_lamp_ramp_active ≠ 0 ∧
        (room_control_tick r).pwm_duty = r.tick_lamp_ramp_level * 10)) := by
  refine ⟨?_, ?_, ?_, tick_door_duty r, ?_⟩
  · rw [button_press_accepted irqs s hacc, revert_tick]
    rfl
  · rw [button_press_accepted irqs s hacc, revert_duty]
  · intro hlt
    rw [button_press_rejected irqs r hlt]
    rfl
  · by_cases hi : r.tick_lamp_ramp_active = 0
    · left
      have hi' : (tick_door r).tick_lamp_ramp_active = 0 := (kept_tick_door r).2.2 hi
      unfold room_control_tick
      rw [tick_ramp_idle _ hi', tick_door_duty]
    · have hi' : (tick_door r).tick_lamp_ramp_active ≠ 0 := by
        unfold tick_door
        split_ifs <;> simpa [gpio_write_pin, uart2_send_string] using hi
      have hl : (tick_door r).tick_lamp_ramp_level = r.tick_lamp_ramp_level := by
        unfold tick_door
        split_ifs <;> simp [gpio_write_pin, uart2_send_string]
      unfold room_control_tick
      by_cases hd : 500 ≤ sub32 (systick_get_tick (tick_door r))
          (tick_door r).tick_lamp_ramp_last_tick
      · right
        refine ⟨hi, ?_⟩
        rw [← hl]
        unfold tick_ramp
        dsimp only
        rw [if_pos hi', if_pos hd]
        split_ifs <;> simp [tim3_ch1_pwm_set_duty_cycle, uart2_send_string]
      · left
        have : tick_ramp (tick_door r) = tick_door r := by
          unfold tick_ramp
          dsimp only
          rw [if_pos hi', if_neg hd]
        rw [this, tick_door_duty]

/-- Witness for C10: the press at tick 1000 after initialisation, preempted by a remote
close at tick 3000; the second state is the one the handler returns. -/
theorem button_press_blocks_witness :
    50 ≤ sub32 (systick_get_tick (at_tick 1000 (room_control_app_init power_on)))
      (at_tick 1000 (room_control_app_init power_on)).g_last_button_tick ∧
    (room_control_on_button_press [.uart 3000 'c']
      (at_tick 1000 (room_control_app_init power_on))).tick =
      (systick_get_tick (at_tick 1000 (room_control_app_init power_on)) + 10000) % 2 ^ 32 :=
  ⟨by decide,
   (button_press_blocks [.uart 3000 'c'] (at_tick 1000 (room_control_app_init power_on))
      (room_control_on_button_press [.uart 3000 'c']
        (at_tick 1000 (room_control_app_init power_on))) (by decide)).1⟩

/-! ## Initial state -/

/-- C11. Initial state: whatever the state before, after `room_control_app_init` the door
flag is 0, the indicator pin is low and the requested duty is 20; so after the bring-up
sequence of `main`, which requests the duty 70 and then calls `room_control_app_init`, the
duty is 20 (and the door is closed with the indicator low). -/
theorem initial_state (s : RoomState) (m : MainState) :
    (room_control_app_init s).g_door_open = 0 ∧
    (room_control_app_init s).door_pin = .GPIO_PIN_RESET ∧
    (room_control_app_init s).pwm_duty = 20 ∧
    (tim3_ch1_pwm_set_duty_cycle 70 m.room).pwm_duty = 70 ∧
    (main_bringup m).room.pwm_duty = 20 ∧
    (main_bringup m).room.g_door_open = 0 ∧
    (main_bringup m).room.door_pin = .GPIO_PIN_RESET := by
  simp [main_bringup, room_control_app_init, tim3_ch1_pwm_set_duty_cycle,
    uart2_send_string, gpio_write_pin]

/-! ## Debounce over sequences -/

theorem press_changes_iff (irqs : List Irq) (s : RoomState) :
    room_control_on_button_press irqs s ≠ s ↔
      50 ≤ sub32 (systick_get_tick s) s.g_last_button_tick := by
  constructor
  · intro hne
    by_contra hlt
    exact hne (button_press_rejected irqs s (Nat.not_le.mp hlt))
  · intro hge heq
    have hg : (room_control_on_button_press irqs s).g_last_button_tick
        = systick_get_tick s := by
      obtain ⟨hk, -, -⟩ := kept_after_open irqs (systick_get_tick s) s
      rw [button_press_accepted irqs s hge, hk]
      simp [button_press_open, uart2_send_string, tim3_ch1_pwm_set_duty_cycle,
        gpio_write_pin]
    rw [heq] at hg
    rw [hg, sub32_same] at hge
    omega

theorem press_last_tick (irqs : List Irq) (s : RoomState) :
    (room_control_on_button_press irqs s).g_last_button_tick =
      if 50 ≤ sub32 (systick_get_tick s) s.g_last_button_tick then systick_get_tick s
      else s.g_last_button_tick := by
  split_ifs with h
  · obtain ⟨hk, -, -⟩ := kept_after_open irqs (systick_get_tick s) s
    rw [button_press_accepted irqs s h, hk]
    simp [button_press_open, uart2_send_string, tim3_ch1_pwm_set_duty_cycle,
      gpio_write_pin]
  · rw [button_press_rejected irqs s (Nat.not_le.mp h)]

theorem press_outcomes_eq (ts : List Nat) (s : RoomState) :
    press_outcomes ts s = debounce_spec s.g_last_button_tick ts := by
  induction ts generalizing s with
  | nil => rfl
  | cons t rest ih =>
    have hd : sub32 (systick_get_tick (at_tick t s)) (at_tick t s).g_last_button_tick
        = sub32 t s.g_last_button_tick := by
      have e1 : systick_get_tick (at_tick t s) = t % 2 ^ 32 := rfl
      have e2 : (at_tick t s).g_last_button_tick = s.g_last_button_tick := rfl
      rw [e1, e2, sub32_mod_left]
    have hl := press_last_tick [] (at_tick t s)
    have hc := press_changes_iff [] (at_tick t s)
    rw [hd] at hl hc
    simp only [press_outcomes, debounce_spec]
    rw [ih, hl]
    by_cases h : 50 ≤ sub32 t s.g_last_button_tick
    · have e1 : systick_get_tick (at_tick t s) = t % 2 ^ 32 := rfl
      simp [h, hc.mpr h, e1]
    · have e2 : (at_tick t s).g_last_button_tick = s.g_last_button_tick := rfl
      have hn : ¬ room_control_on_button_press [] (at_tick t s) ≠ at_tick t s :=
        fun hne => h (hc.mp hne)
      simp [h, hn, e2]

/-- C12 fails as stated: after the bring-up of `main` the debounce tick is 0, and a first
press at tick 30 is dropped. -/
theorem first_press_within_50ms_dropped :
    (main_bringup main_power_on).room.g_last_button_tick = 0 ∧
    press_outcomes [30] (main_bringup main_power_on).room = [false] ∧
    room_control_on_button_press [] (at_tick 30 (main_bringup main_power_on).room) =
      at_tick 30 (main_bringup main_power_on).room := by
  decide

/-- C12 as amended: over every sequence of press ticks the handler accepts exactly the
presses the debounce rule accepts, each compared (wrapped difference at least 50) with
the tick of the last accepted press, which is 0 before any press is accepted; so from the
boot state the first press is accepted iff its tick is at least 50, a press at least
50 ms after the last accepted one is accepted, and a press less than 50 ms after an
accepted one is dropped. -/
theorem debounce_sequences (s : RoomState) (ts : List Nat) (t1 t2 : Nat) :
    press_outcomes ts s = debounce_spec s.g_last_button_tick ts ∧
    (s.g_last_button_tick = 0 → (press_outcomes [t1] s = [true] ↔ 50 ≤ t1 % 2 ^ 32)) ∧
    (50 ≤ sub32 t1 s.g_last_button_tick →
      (50 ≤ sub32 t2 t1 → press_outcomes [t1, t2] s = [true, true]) ∧
      (sub32 t2 t1 < 50 → press_outcomes [t1, t2] s = [true, false])) := by
  refine ⟨press_outcomes_eq ts s, ?_, ?_⟩
  · intro h0
    have hz : sub32 t1 0 = t1 % 2 ^ 32 := by
      simp only [sub32, Nat.reducePow]
      omega
    rw [press_outcomes_eq, h0]
    simp [debounce_spec, hz]
  · intro h1
    rw [press_outcomes_eq]
    have hm : sub32 t2 (t1 % 2 ^ 32) = sub32 t2 t1 := sub32_mod_right t2 t1
    constructor
    · intro h2
      simp only [debounce_spec, if_pos h1, hm, if_pos h2]
    · intro h2
      simp only [debounce_spec, if_pos h1, hm, if_neg (Nat.not_le.mpr h2)]

/-! ## Command idempotence -/

/-- C13. Command idempotence: in every state, dispatching '4' twice gives the same
door, indicator, duty, ramp and debounce state as dispatching it once (duty 20); the
only difference is that the log holds the notification twice.  The same holds for each
of '0', '1', '2', '3', 's', 'c', 'C'. -/
theorem command_idempotence (s : RoomState) :
    idempotent_up_to_log '4' s ∧
    (room_control_on_uart_receive '4' (room_control_on_uart_receive '4' s)).pwm_duty = 20 ∧
    idempotent_up_to_log '0' s ∧ idempotent_up_to_log '1' s ∧
    idempotent_up_to_log '2' s ∧ idempotent_up_to_log '3' s ∧
    idempotent_up_to_log 's' s ∧ idempotent_up_to_log 'c' s ∧
    idempotent_up_to_log 'C' s := by
  refine ⟨⟨["Lámpara: brillo al 20%.\r\n"], ?_, ?_⟩, ?_,
    ⟨["Lámpara apagada.\r\n"], ?_, ?_⟩,
    ⟨["Lámpara: brillo al 100%.\r\n"], ?_, ?_⟩,
    ⟨["Lámpara: brillo al 70%.\r\n", "Puerta Abierta.\r\n"], ?_, ?_⟩,
    ⟨["Lámpara: brillo al 50%.\r\n"], ?_, ?_⟩,
    ⟨["Lámpara: brillo al 70%.\r\n", "Puerta Abierta.\r\n"], ?_, ?_⟩,
    ⟨["Puerta cerrada remotamente.\r\n"], ?_, ?_⟩,
    ⟨["Puerta cerrada remotamente.\r\n"], ?_, ?_⟩⟩ <;>
    simp [room_control_on_uart_receive, tim3_ch1_pwm_set_duty_cycle, uart2_send_string,
      gpio_write_pin]

/-! ## Wraparound -/

theorem sub32_int (a b : Nat) : (sub32 a b : Int) = ((a : Int) - b) % 2 ^ 32 := by
  simp only [sub32, Nat.reducePow]
  omega

theorem tick_door_changes_iff (s : RoomState) :
    tick_door s ≠ s ↔
      s.g_door_open ≠ 0 ∧ 3000 ≤ sub32 (systick_get_tick s) s.g_door_open_tick := by
  constructor
  · intro hne
    by_contra hc
    exact hne (by simp [tick_door, hc])
  · rintro ⟨ho, hge⟩ heq
    have h0 : (tick_door s).g_door_open = 0 := by rw [tick_door_late s ho hge]
    rw [heq] at h0
    exact ho h0

theorem tick_ramp_changes_iff (s : RoomState) :
    tick_ramp s ≠ s ↔
      s.tick_lamp_ramp_active ≠ 0 ∧
        500 ≤ sub32 (systick_get_tick s) s.tick_lamp_ramp_last_tick := by
  constructor
  · intro hne
    by_contra hc
    apply hne
    unfold tick_ramp
    dsimp only
    by_cases ha : s.tick_lamp_ramp_active = 0
    · simp [ha]
    · have hd : ¬ 500 ≤ sub32 (systick_get_tick s) s.tick_lamp_ramp_last_tick :=
        fun hd => hc ⟨ha, hd⟩
      rw [if_pos ha, if_neg hd]
  · rintro ⟨ha, hge⟩ heq
    have hl : (tick_ramp s).tick_lamp_ramp_level = (s.tick_lamp_ramp_level + 1) % 256 := by
      unfold tick_ramp
      dsimp only
      rw [if_pos ha, if_pos hge]
      split_ifs <;> simp [tim3_ch1_pwm_set_duty_cycle, uart2_send_string]
    rw [heq] at hl
    omega

/-- C14. Wraparound tolerance: with 32-bit ticks every threshold test is made on the
wrapped difference.  For every reference `r` and every `now`: the debounce accepts iff
`(now - r) mod 2^32 >= 50`, the auto-close fires iff the door is open and
`(now - r) mod 2^32 >= 3000`, and the ramp step fires iff the ramp of the poll step is
active and `(now - r) mod 2^32 >= 500`.  A door opened at `2^32 - 1000` is still open
after a poll at wrapped tick 1999 and closed by a poll at wrapped tick 2000. -/
theorem wraparound_tolerance (irqs : List Irq) (s : RoomState) :
    (room_control_on_button_press irqs s ≠ s ↔
      50 ≤ ((s.tick : Int) - s.g_last_button_tick) % 2 ^ 32) ∧
    (tick_door s ≠ s ↔
      s.g_door_open ≠ 0 ∧ 3000 ≤ ((s.tick : Int) - s.g_door_open_tick) % 2 ^ 32) ∧
    (tick_ramp s ≠ s ↔
      s.tick_lamp_ramp_active ≠ 0 ∧
        500 ≤ ((s.tick : Int) - s.tick_lamp_ramp_last_tick) % 2 ^ 32) ∧
    (room_control_tick (at_tick 1999
      (room_control_on_uart_receive 'o' (at_tick (2 ^ 32 - 1000) s)))).g_door_open = 1 ∧
    (room_control_tick (at_tick 2000
      (room_control_on_uart_receive 'o' (at_tick (2 ^ 32 - 1000) s)))).g_door_open = 0 := by
  have e50 := sub32_int s.tick s.g_last_button_tick
  have e3000 := sub32_int s.tick s.g_door_open_tick
  have e500 := sub32_int s.tick s.tick_lamp_ramp_last_tick
  have hopen : (room_control_on_uart_receive 'o' (at_tick (2 ^ 32 - 1000) s)).g_door_open
      = 1 := by
    simp [room_control_on_uart_receive, uart2_send_string, gpio_write_pin]
  have htick : (room_control_on_uart_receive 'o'
      (at_tick (2 ^ 32 - 1000) s)).g_door_open_tick = 4294966296 := by
    simp [room_control_on_uart_receive, uart2_send_string, gpio_write_pin,
      systick_get_tick, at_tick]
  refine ⟨?_, ?_, ?_, ?_, ?_⟩
  · rw [press_changes_iff, ← e50]
    exact Int.ofNat_le.symm
  · rw [tick_door_changes_iff, ← e3000]
    exact and_congr Iff.rfl Int.ofNat_le.symm
  · rw [tick_ramp_changes_iff, ← e500]
    exact and_congr Iff.rfl Int.ofNat_le.symm
  · have hd : sub32 (systick_get_tick (at_tick 1999
        (room_control_on_uart_receive 'o' (at_tick (2 ^ 32 - 1000) s))))
        (at_tick 1999 (room_control_on_uart_receive 'o'
          (at_tick (2 ^ 32 - 1000) s))).g_door_open_tick < 3000 := by
      have e1 : systick_get_tick (at_tick 1999
        (room_control_on_uart_receive 'o' (at_tick (2 ^ 32 - 1000) s))) = 1999 % 2 ^ 32 :=
        rfl
      have e2 : (at_tick 1999 (room_control_on_uart_receive 'o'
          (at_tick (2 ^ 32 - 1000) s))).g_door_open_tick = 4294966296 := htick
      rw [e1, e2]
      decide
    unfold room_control_tick
    rw [tick_ramp_door, tick_door_early _ hd]
    exact hopen
  · have hd : 3000 ≤ sub32 (systick_get_tick (at_tick 2000
        (room_control_on_uart_receive 'o' (at_tick (2 ^ 32 - 1000) s))))
        (at_tick 2000 (room_control_on_uart_receive 'o'
          (at_tick (2 ^ 32 - 1000) s))).g_door_open_tick := by
      have e1 : systick_get_tick (at_tick 2000
        (room_control_on_uart_receive 'o' (at_tick (2 ^ 32 - 1000) s))) = 2000 % 2 ^ 32 :=
        rfl
      have e2 : (at_tick 2000 (room_control_on_uart_receive 'o'
          (at_tick (2 ^ 32 - 1000) s))).g_door_open_tick = 4294966296 := htick
      rw [e1, e2]
      decide
    have ho : (at_tick 2000 (room_control_on_uart_receive 'o'
        (at_tick (2 ^ 32 - 1000) s))).g_door_open ≠ 0 := by
      have : (at_tick 2000 (room_control_on_uart_receive 'o'
        (at_tick (2 ^ 32 - 1000) s))).g_door_open = 1 := hopen
      omega
    unfold room_control_tick
    rw [tick_ramp_door, tick_door_late _ ho hd]

/-! ## Brightness after the press, status command -/

/-- C15, evaluated on the code: after initialisation, whichever level command sets the
brightness at tick 1000 (duty 100, 70, 50, 20 or 0), an accepted press at tick 2000 with
no preempting handler returns with the duty 20, not with the level configured before
the press. -/
theorem press_forgets_uart_level :
    (room_control_on_uart_receive '3'
      (at_tick 1000 (room_control_app_init power_on))).pwm_duty = 50 ∧
    (room_control_on_button_press [] (at_tick 2000 (room_control_on_uart_receive '3'
      (at_tick 1000 (room_control_app_init power_on))))).pwm_duty = 20 ∧
    (room_control_on_button_press [] (at_tick 2000 (room_control_on_uart_receive '1'
      (at_tick 1000 (room_control_app_init power_on))))).pwm_duty = 20 ∧
    (room_control_on_button_press [] (at_tick 2000 (room_control_on_uart_receive '2'
      (at_tick 1000 (room_control_app_init power_on))))).pwm_duty = 20 ∧
    (room_control_on_button_press [] (at_tick 2000 (room_control_on_uart_receive '0'
      (at_tick 1000 (room_control_app_init power_on))))).pwm_duty = 20 ∧
    (room_control_on_button_press [.uart 5000 'c'] (at_tick 2000
      (room_control_on_uart_receive '3'
        (at_tick 1000 (room_control_app_init power_on))))).pwm_duty = 70 := by
  decide

/-- C16, evaluated on the code: right after initialisation the door is closed and the
duty is 20, yet the 's' command sends "brillo al 70%" and "Puerta Abierta", and it
changes the duty to 70. -/
theorem status_command_misreports :
    (room_control_app_init power_on).g_door_open = 0 ∧
    (room_control_app_init power_on).pwm_duty = 20 ∧
    (room_control_on_uart_receive 's' (room_control_app_init power_on)).uart_log =
      (room_control_app_init power_on).uart_log ++
        ["Lámpara: brillo al 70%.\r\n", "Puerta Abierta.\r\n"] ∧
    (room_control_on_uart_receive 's' (room_control_app_init power_on)).g_door_open = 0 ∧
    (room_control_on_uart_receive 's' (room_control_app_init power_on)).pwm_duty = 70 := by
  decide

/-! ## Invariants of the reachable states -/

theorem mirror_uart (cmd : Char) (s : RoomState) (h : pin_mirrors_door s) :
    pin_mirrors_door (room_control_on_uart_receive cmd s) := by
  unfold room_control_on_uart_receive
  split_ifs <;>
    simp_all [pin_mirrors_door, tim3_ch1_pwm_set_duty_cycle, uart2_send_string,
      gpio_write_pin]

theorem mirror_tick (s : RoomState) (h : pin_mirrors_door s) :
    pin_mirrors_door (room_control_tick s) := by
  have hd : pin_mirrors_door (tick_door s) := by
    unfold tick_door
    split_ifs <;> simp_all [pin_mirrors_door, uart2_send_string, gpio_write_pin]
  unfold room_control_tick tick_ramp
  dsimp only
  split_ifs <;>
    simp_all [pin_mirrors_door, tim3_ch1_pwm_set_duty_cycle, uart2_send_string]

theorem mirror_foldl (irqs : List Irq) (s : RoomState) (h : pin_mirrors_door s) :
    pin_mirrors_door (irqs.foldl run_irq s) := by
  induction irqs generalizing s with
  | nil => exact h
  | cons i rest ih =>
    apply ih
    cases i with
    | uart t cmd => exact mirror_uart cmd _ h
    | poll t => exact mirror_tick _ h

theorem mirror_revert (s : RoomState) (h : pin_mirrors_door s) :
    pin_mirrors_door (button_press_revert s) := by
  unfold button_press_revert
  split_ifs <;>
    simp_all [pin_mirrors_door, tim3_ch1_pwm_set_duty_cycle, uart2_send_string]

theorem mirror_button (irqs : List Irq) (s : RoomState) (h : pin_mirrors_door s) :
    pin_mirrors_door (room_control_on_button_press irqs s) := by
  by_cases hlt : sub32 (systick_get_tick s) s.g_last_button_tick < 50
  · rw [button_press_rejected irqs s hlt]; exact h
  · rw [button_press_accepted irqs s (Nat.not_lt.mp hlt)]
    apply mirror_revert
    have ho : pin_mirrors_door (button_press_open (systick_get_tick s) s) := by
      simp [pin_mirrors_door, button_press_open, tim3_ch1_pwm_set_duty_cycle,
        uart2_send_string, gpio_write_pin]
    have hf := mirror_foldl irqs _ ho
    simpa [pin_mirrors_door, systick_delay_ms, at_tick] using hf

/-- C17. Indicator mirrors the door flag: in every state reachable from
`room_control_app_init` by completed button-press, UART-byte and poll calls at arbitrary
tick values, the door-indicator pin is high iff `g_door_open = 1`. -/
theorem indicator_mirrors_door (s : RoomState) (hs : Reachable s) :
    s.door_pin = .GPIO_PIN_SET ↔ s.g_door_open = 1 := by
  have h : pin_mirrors_door s := by
    induction hs with
    | init s0 _ =>
      simp [pin_mirrors_door, room_control_app_init, tim3_ch1_pwm_set_duty_cycle,
        uart2_send_string, gpio_write_pin]
    | time t s _ ih => simpa [pin_mirrors_door, at_tick] using ih
    | button irqs s _ ih => exact mirror_button irqs s ih
    | uart cmd s _ ih => exact mirror_uart cmd s ih
    | poll s _ ih => exact mirror_tick s ih
  exact h

/-- Witness for C17: the state after initialisation and a remote open. -/
theorem indicator_mirrors_door_witness :
    Reachable (room_control_on_uart_receive 'o' (room_control_app_init power_on)) ∧
    ((room_control_on_uart_receive 'o' (room_control_app_init power_on)).door_pin
        = .GPIO_PIN_SET ↔
      (room_control_on_uart_receive 'o' (room_control_app_init power_on)).g_door_open
        = 1) :=
  ⟨.uart 'o' _ (.init power_on (by simp [fresh_statics, power_on])),
   indicator_mirrors_door _
     (.uart 'o' _ (.init power_on (by simp [fresh_statics, power_on])))⟩

theorem uart_duty_le (cmd : Char) (s : RoomState) (h : s.pwm_duty ≤ 100) :
    (room_control_on_uart_receive cmd s).pwm_duty ≤ 100 := by
  unfold room_control_on_uart_receive
  split_ifs <;>
    simp [tim3_ch1_pwm_set_duty_cycle, uart2_send_string, gpio_write_pin, h]

theorem uart_tick_ramp (cmd : Char) (s : RoomState) :
    (room_control_on_uart_receive cmd s).tick_lamp_ramp_active = s.tick_lamp_ramp_active ∧
    (room_control_on_uart_receive cmd s).tick_lamp_ramp_level = s.tick_lamp_ramp_level := by
  unfold room_control_on_uart_receive
  split_ifs <;>
    simp [tim3_ch1_pwm_set_duty_cycle, uart2_send_string, gpio_write_pin]

theorem duty_ok_uart (cmd : Char) (s : RoomState) (h : duty_ok s) :
    duty_ok (room_control_on_uart_receive cmd s) := by
  obtain ⟨h1, h2⟩ := h
  have hp := uart_duty_le cmd s h1
  obtain ⟨ea, el⟩ := uart_tick_ramp cmd s
  unfold duty_ok
  rw [ea, el]
  exact ⟨hp, h2⟩

theorem duty_ok_tick (s : RoomState) (h : duty_ok s) : duty_ok (room_control_tick s) := by
  have hd : duty_ok (tick_door s) := by
    obtain ⟨h1, h2⟩ := h
    unfold tick_door
    split_ifs <;>
      exact ⟨by simp [uart2_send_string, gpio_write_pin, h1],
        by simpa [uart2_send_string, gpio_write_pin] using h2⟩
  obtain ⟨h1, h2⟩ := hd
  unfold room_control_tick tick_ramp
  dsimp only
  by_cases ha : (tick_door s).tick_lamp_ramp_active = 0
  · rw [if_neg (not_not.mpr ha)]
    exact ⟨h1, h2⟩
  · have hl := h2 ha
    rw [if_pos ha]
    by_cases hstep : sub32 (systick_get_tick (tick_door s))
        (tick_door s).tick_lamp_ramp_last_tick ≥ 500
    · rw [if_pos hstep]
      simp only [tim3_ch1_pwm_set_duty_cycle]
      by_cases hend : ((tick_door s).tick_lamp_ramp_level + 1) % 256 > 10
      · rw [if_pos hend]
        refine ⟨?_, ?_⟩
        · simp only [uart2_send_string]
          omega
        · simp [uart2_send_string]
      · rw [if_neg hend]
        refine ⟨?_, ?_⟩
        · show (tick_door s).tick_lamp_ramp_level * 10 ≤ 100
          omega
        · intro _
          show ((tick_door s).tick_lamp_ramp_level + 1) % 256 ≤ 10
          omega
    · rw [if_neg hstep]
      exact ⟨h1, h2⟩

theorem duty_ok_foldl (irqs : List Irq) (s : RoomState) (h : duty_ok s) :
    duty_ok (irqs.foldl run_irq s) := by
  induction irqs generalizing s with
  | nil => exact h
  | cons i rest ih =>
    apply ih
    cases i with
    | uart t cmd => exact duty_ok_uart cmd _ h
    | poll t => exact duty_ok_tick _ h

theorem duty_ok_open (now : Nat) (s : RoomState) (h : duty_ok s) :
    duty_ok (button_press_open now s) := by
  obtain ⟨-, h2⟩ := h
  exact ⟨by simp [button_press_open, tim3_ch1_pwm_set_duty_cycle, uart2_send_string,
    gpio_write_pin], h2⟩

theorem duty_ok_button (irqs : List Irq) (s : RoomState) (h : duty_ok s) :
    duty_ok (room_control_on_button_press irqs s) := by
  by_cases hlt : sub32 (systick_get_tick s) s.g_last_button_tick < 50
  · rw [button_press_rejected irqs s hlt]; exact h
  · rw [button_press_accepted irqs s (Nat.not_lt.mp hlt)]
    have hf := duty_ok_foldl irqs _ (duty_ok_open (systick_get_tick s) s h)
    have hw : duty_ok (systick_delay_ms irqs 10000
        (button_press_open (systick_get_tick s) s)) := by
      simpa [duty_ok, systick_delay_ms, at_tick] using hf
    obtain ⟨-, h2⟩ := hw
    unfold button_press_revert
    split_ifs <;>
      exact ⟨by simp [tim3_ch1_pwm_set_duty_cycle, uart2_send_string],
        by simpa [tim3_ch1_pwm_set_duty_cycle, uart2_send_string] using h2⟩

theorem reachable_duty_ok {s : RoomState} (hs : Reachable s) : duty_ok s := by
  induction hs with
  | init s0 h0 =>
    have ha : s0.tick_lamp_ramp_active = 0 := h0.2.2.2.2.2.2.1
    simp [duty_ok, room_control_app_init, tim3_ch1_pwm_set_duty_cycle,
      uart2_send_string, gpio_write_pin, ha]
  | time t s _ ih => simpa [duty_ok, at_tick] using ih
  | button irqs s _ ih => exact duty_ok_button irqs s ih
  | uart cmd s _ ih => exact duty_ok_uart cmd s ih
  | poll s _ ih => exact duty_ok_tick s ih

/-- C18. Duty stays in range: in every reachable state `s` the requested duty is at most
100, and so are the two duties an accepted press requests: 100 before its wait, at most
100 after any handlers `irqs` that preempt the wait, and the final 20 or 70 (which is
the duty of a reachable state again).  The ramp counter of `room_control_tick` is at most
10 whenever its ramp is active: this holds in every reachable state and is preserved by
the poll step from any state `r` that satisfies it, so `lamp_ramp_level * 10` is at most
100 and fits 8 bits. -/
theorem duty_stays_in_range (s r : RoomState) (irqs : List Irq)
    (hs : Reachable s) (hr : duty_ok r) :
    s.pwm_duty ≤ 100 ∧
    (s.tick_lamp_ramp_active ≠ 0 → s.tick_lamp_ramp_level ≤ 10) ∧
    (button_press_open (systick_get_tick s) s).pwm_duty = 100 ∧
    (irqs.foldl run_irq (button_press_open (systick_get_tick s) s)).pwm_duty ≤ 100 ∧
    (room_control_on_button_press irqs s).pwm_duty ≤ 100 ∧
    duty_ok (room_control_tick r) ∧
    (r.tick_lamp_ramp_active ≠ 0 →
      r.tick_lamp_ramp_level * 10 ≤ 100 ∧ r.tick_lamp_ramp_level * 10 < 256) := by
  have h := reachable_duty_ok hs
  refine ⟨h.1, h.2, rfl, ?_, ?_, duty_ok_tick r hr, ?_⟩
  · exact (duty_ok_foldl irqs _ (duty_ok_open (systick_get_tick s) s h)).1
  · exact (duty_ok_button irqs s h).1
  · intro ha
    have := hr.2 ha
    omega

/-- Witness for C18: the state after initialisation, and a state in which the ramp of the
poll step is at its last step, where the poll requests the duty 100 and ends the ramp. -/
theorem duty_stays_in_range_witness :
    Reachable (room_control_app_init power_on) ∧ duty_ok ramp_last_step ∧
    duty_ok (room_control_tick ramp_last_step) ∧
    (room_control_tick ramp_last_step).pwm_duty = 100 ∧
    (room_control_tick ramp_last_step).tick_lamp_ramp_active = 0 :=
  ⟨.init power_on (by simp [fresh_statics, power_on]),
   by simp [duty_ok, ramp_last_step, power_on],
   (duty_stays_in_range (room_control_app_init power_on) ramp_last_step []
      (.init power_on (by simp [fresh_statics, power_on]))
      (by simp [duty_ok, ramp_last_step, power_on])).2.2.2.2.2.1,
   by decide, by decide⟩

/-! ## Main loop -/

/-- C19, evaluated on the code: an iteration of the loop of `main` calls only
`heartbeat_led_toggle`, so it leaves the whole room-controller state as it was.  With
the door opened by a remote 'o' at tick 1000 after the bring-up, loop iterations at ticks
4000, 4500 and 20000 leave the door flag at 1 and the indicator high, although a call of
`room_control_tick` at tick 4000 would close the door. -/
theorem main_loop_never_polls (m : MainState) :
    (main_loop_iteration m).room = m.room ∧
    opened_after_bringup.room.g_door_open = 1 ∧
    (main_loop [4000, 4500, 20000] opened_after_bringup).room.g_door_open = 1 ∧
    (main_loop [4000, 4500, 20000] opened_after_bringup).room.door_pin = .GPIO_PIN_SET ∧
    (main_loop [4000, 4500, 20000] opened_after_bringup).room.uart_log =
      opened_after_bringup.room.uart_log ∧
    (room_control_tick (at_tick 4000 opened_after_bringup.room)).g_door_open = 0 := by
  refine ⟨?_, by decide, by decide, by decide, by decide, by decide⟩
  unfold main_loop_iteration heartbeat_led_toggle
  split_ifs <;> rfl

/-! ## Sequential outcome of an accepted press -/

theorem tick_ramp_pin (s : RoomState) : (tick_ramp s).door_pin = s.door_pin := by
  unfold tick_ramp
  dsimp only
  split_ifs <;> simp [tim3_ch1_pwm_set_duty_cycle, uart2_send_string]

/-- C20. Sequential outcome of an accepted press: when no handler preempts
`room_control_on_button_press`, every accepted press returns with `g_door_open = 1`, the
indicator high, `g_door_open_tick` equal to the entry tick and the duty 20 (never 70),
with the tick counter 10 000 ms past its entry value.  Hence `room_control_tick` called
on return, or at any later tick `t` that reads at least 10 000 past the entry tick,
clears the door flag and resets the indicator. -/
theorem accepted_press_outcome (s : RoomState) (t : Nat)
    (hacc : 50 ≤ sub32 (systick_get_tick s) s.g_last_button_tick)
    (ht : 10000 ≤ sub32 t (systick_get_tick s)) :
    (room_control_on_button_press [] s).g_door_open = 1 ∧
    (room_control_on_button_press [] s).door_pin = .GPIO_PIN_SET ∧
    (room_control_on_button_press [] s).g_door_open_tick = systick_get_tick s ∧
    (room_control_on_button_press [] s).pwm_duty = 20 ∧
    (room_control_on_button_press [] s).tick = (systick_get_tick s + 10000) % 2 ^ 32 ∧
    sub32 (room_control_on_button_press [] s).tick (systick_get_tick s) = 10000 ∧
    (room_control_tick (room_control_on_button_press [] s)).g_door_open = 0 ∧
    (room_control_tick (room_control_on_button_press [] s)).door_pin = .GPIO_PIN_RESET ∧
    (room_control_tick (at_tick t (room_control_on_button_press [] s))).g_door_open = 0 ∧
    (room_control_tick (at_tick t (room_control_on_button_press [] s))).door_pin
      = .GPIO_PIN_RESET := by
  have hr : room_control_on_button_press [] s =
      { s with tick := (systick_get_tick s + 10000) % 2 ^ 32,
               g_last_button_tick := systick_get_tick s,
               g_door_open_tick := systick_get_tick s, g_door_open := 1,
               door_pin := .GPIO_PIN_SET, pwm_duty := 20,
               uart_log := s.uart_log ++
                 ["Evento: Botón presionado - Abriendo puerta.\r\n",
                  "Lámpara: brillo al 100%.\r\n",
                  "Lámpara: brillo al 20% tras 10 segundos.\r\n"] } := by
    rw [button_press_accepted [] s hacc]
    simp [button_press_revert, systick_delay_ms, at_tick, button_press_open,
      uart2_send_string, tim3_ch1_pwm_set_duty_cycle, gpio_write_pin, systick_get_tick]
  have hopen : (room_control_on_button_press [] s).g_door_open = 1 := by rw [hr]
  have htk : (room_control_on_button_press [] s).g_door_open_tick = systick_get_tick s := by
    rw [hr]
  have htick : (room_control_on_button_press [] s).tick
      = (systick_get_tick s + 10000) % 2 ^ 32 := by rw [hr]
  have hsub : sub32 ((systick_get_tick s + 10000) % 2 ^ 32) (systick_get_tick s)
      = 10000 := by
    simp only [sub32, Nat.reducePow]
    omega
  have hclose : ∀ r : RoomState, r.g_door_open = 1 →
      3000 ≤ sub32 (systick_get_tick r) r.g_door_open_tick →
      (room_control_tick r).g_door_open = 0 ∧
      (room_control_tick r).door_pin = .GPIO_PIN_RESET := by
    intro r ho hge
    unfold room_control_tick
    rw [tick_ramp_door, tick_ramp_pin, tick_door_late r (by omega) hge]
    exact ⟨rfl, rfl⟩
  have h1 := hclose (room_control_on_button_press [] s) hopen (by
    show 3000 ≤ sub32 (room_control_on_button_press [] s).tick _
    rw [htick, htk, hsub]
    omega)
  have h2 := hclose (at_tick t (room_control_on_button_press [] s)) hopen (by
    have e1 : systick_get_tick (at_tick t (room_control_on_button_press [] s))
        = t % 2 ^ 32 := rfl
    have e2 : (at_tick t (room_control_on_button_press [] s)).g_door_open_tick
        = systick_get_tick s := htk
    rw [e1, e2, sub32_mod_left]
    omega)
  refine ⟨hopen, by rw [hr], htk, by rw [hr], htick, ?_, h1.1, h1.2, h2.1, h2.2⟩
  rw [htick, hsub]

/-- Witness for C20: a press at tick 1000 after initialisation, then a poll at tick
11000. -/
theorem accepted_press_outcome_witness :
    50 ≤ sub32 (systick_get_tick (at_tick 1000 (room_control_app_init power_on)))
      (at_tick 1000 (room_control_app_init power_on)).g_last_button_tick ∧
    10000 ≤ sub32 11000 (systick_get_tick (at_tick 1000 (room_control_app_init power_on))) ∧
    (room_control_on_button_press []
      (at_tick 1000 (room_control_app_init power_on))).pwm_duty = 20 ∧
    (room_control_tick (at_tick 11000 (room_control_on_button_press []
      (at_tick 1000 (room_control_app_init power_on))))).g_door_open = 0 :=
  ⟨by decide, by decide,
   (accepted_press_outcome (at_tick 1000 (room_control_app_init power_on)) 11000
      (by decide) (by decide)).2.2.2.1,
   (accepted_press_outcome (at_tick 1000 (room_control_app_init power_on)) 11000
      (by decide) (by decide)).2.2.2.2.2.2.2.2.1⟩

end RoomControl
